import Mathlib

/-!
# Superbowl predictor — verification of the frontend data layer

Shallow embedding of `src/frontend/src/lib/api.ts`, the hooks
`usePrediction.ts` / `useExplore.ts`, and the components
`ConfidenceMeter.tsx`, `ModelComparison.tsx`,
`eda/HistoricalComparison.tsx`.  JavaScript numbers are modelled as
exact rationals (`ℚ`); every decimal literal of the source is exactly
representable.  `Math.round` is modelled as `⌊x + 1/2⌋` (JS rounds half
toward +∞).  The unseeded `Math.random()` stream is made explicit as a
function `ℕ → ℚ` giving the successive draws.
-/

namespace SBP

/-- JS `Math.round`: nearest integer, halves toward +∞. -/
def jsRound (q : ℚ) : ℤ := ⌊q + 1/2⌋

/-- `TeamPrediction` from `api.ts`. -/
structure TeamPrediction where
  abbr : String
  name : String
  win_prob : ℚ
deriving DecidableEq

/-- The `favors` field's value set `'SEA' | 'NE'` from `api.ts`. -/
inductive Favors where
  | SEA : Favors
  | NE : Favors
deriving DecidableEq

/-- `FeatureContribution` from `api.ts`. -/
structure FeatureContribution where
  feature : String
  value : ℚ
  favors : Favors
deriving DecidableEq

/-- `PredictionResponse` from `api.ts`. -/
structure PredictionResponse where
  team_a : TeamPrediction
  team_b : TeamPrediction
  confidence_interval : ℚ × ℚ
  feature_contributions : List FeatureContribution
deriving DecidableEq

/-- `FeatureImportance` from `api.ts`. -/
structure FeatureImportance where
  feature : String
  importance : ℚ
  selected : Bool
deriving DecidableEq

/-- `ModelMetrics` from `api.ts`: exactly the seven fields of the
TypeScript interface. -/
structure ModelMetrics where
  model_name : String
  accuracy : ℚ
  accuracy_std : ℚ
  log_loss : ℚ
  log_loss_std : ℚ
  roc_auc : ℚ
  roc_auc_std : ℚ
deriving DecidableEq

/-- `FeaturesResponse` from `api.ts`. -/
structure FeaturesResponse where
  selected_features : List String
  all_importances : List FeatureImportance
  model_comparison : List ModelMetrics
deriving DecidableEq

/-- `ModelType` from `api.ts`. -/
inductive ModelType where
  | logistic_regression : ModelType
  | random_forest : ModelType
deriving DecidableEq

/-- `mockPrediction` from `api.ts`. -/
def mockPrediction : PredictionResponse :=
  { team_a := { abbr := "SEA", name := "Seattle Seahawks", win_prob := 0.423 }
    team_b := { abbr := "NE", name := "New England Patriots", win_prob := 0.577 }
    confidence_interval := (0.52, 0.63)
    feature_contributions :=
      [ { feature := "Points Per Game", value := 2.3, favors := .NE }
      , { feature := "Points Allowed", value := -1.8, favors := .SEA }
      , { feature := "Point Differential", value := 1.5, favors := .NE }
      , { feature := "Win %", value := 0.8, favors := .NE }
      , { feature := "Pythagorean Wins", value := -0.5, favors := .SEA }
      , { feature := "Strength of Schedule", value := 1.2, favors := .NE }
      , { feature := "Average Margin", value := -0.3, favors := .SEA } ] }

/-- `mockFeatures` from `api.ts`. -/
def mockFeatures : FeaturesResponse :=
  { selected_features :=
      [ "points_per_game", "points_allowed", "point_differential", "win_pct"
      , "pythagorean_wins", "strength_of_schedule", "average_margin" ]
    all_importances :=
      [ { feature := "Points Per Game", importance := 0.18, selected := true }
      , { feature := "Points Allowed", importance := 0.16, selected := true }
      , { feature := "Point Differential", importance := 0.15, selected := true }
      , { feature := "Win %", importance := 0.14, selected := true }
      , { feature := "Pythagorean Wins", importance := 0.13, selected := true }
      , { feature := "Strength of Schedule", importance := 0.12, selected := true }
      , { feature := "Average Margin", importance := 0.12, selected := true } ]
    model_comparison :=
      [ { model_name := "Logistic Regression", accuracy := 0.682, accuracy_std := 0.045
        , log_loss := 0.584, log_loss_std := 0.032, roc_auc := 0.731, roc_auc_std := 0.038 }
      , { model_name := "Random Forest", accuracy := 0.654, accuracy_std := 0.052
        , log_loss := 0.612, log_loss_std := 0.041, roc_auc := 0.708, roc_auc_std := 0.044 } ] }

/-- The model-specific fallback prediction built in the `catch` branch of
`refetchWithModel` (`usePrediction.ts` lines 62–66): `mockPrediction`
with `win_prob` overridden per model. -/
def refetchFallback (model : ModelType) : PredictionResponse :=
  { mockPrediction with
    team_a := { mockPrediction.team_a with
                win_prob := if model = .random_forest then 0.456 else 0.423 }
    team_b := { mockPrediction.team_b with
                win_prob := if model = .random_forest then 0.544 else 0.577 } }

/-- C1: every `PredictionResponse` exposed at the frontend interface —
`mockPrediction` and the two model-specific fallback predictions of
`refetchWithModel` — has `team_a.win_prob + team_b.win_prob = 1`
(exactly, hence within floating tolerance). -/
theorem mock_win_probs_sum_to_one :
    mockPrediction.team_a.win_prob + mockPrediction.team_b.win_prob = 1 ∧
    (refetchFallback .logistic_regression).team_a.win_prob +
      (refetchFallback .logistic_regression).team_b.win_prob = 1 ∧
    (refetchFallback .random_forest).team_a.win_prob +
      (refetchFallback .random_forest).team_b.win_prob = 1 := by
  refine ⟨?_, ?_, ?_⟩ <;> simp [mockPrediction, refetchFallback] <;> norm_num

/-! ## ConfidenceMeter.tsx -/

/-- `ConfidenceMeter.tsx` line 9:
`prediction.team_a.win_prob > prediction.team_b.win_prob ? 'SEA' : 'NE'`. -/
def winner (p : PredictionResponse) : String :=
  if p.team_b.win_prob < p.team_a.win_prob then "SEA" else "NE"

/-- `ConfidenceMeter.tsx` line 10: `Math.max(...)`. -/
def winningProb (p : PredictionResponse) : ℚ :=
  max p.team_a.win_prob p.team_b.win_prob

/-- `ConfidenceMeter.tsx` line 13: `((winningProb - 0.5) / 0.5) * 100`. -/
def confidence (p : PredictionResponse) : ℚ :=
  ((winningProb p - 0.5) / 0.5) * 100

/-- C10: the displayed confidence equals `((max(pa, pb) − 0.5) / 0.5)·100`;
the winner is `"SEA"` exactly when `team_a.win_prob` strictly exceeds
`team_b.win_prob` (so an exact tie yields `"NE"`); and when both
probabilities are non-negative and sum to 1 the confidence lies in
`[0, 100]`. -/
theorem confidenceMeter_spec (p : PredictionResponse)
    (ha : 0 ≤ p.team_a.win_prob) (hb : 0 ≤ p.team_b.win_prob)
    (hsum : p.team_a.win_prob + p.team_b.win_prob = 1) :
    confidence p = ((max p.team_a.win_prob p.team_b.win_prob - 0.5) / 0.5) * 100 ∧
    (winner p = "SEA" ↔ p.team_b.win_prob < p.team_a.win_prob) ∧
    (p.team_a.win_prob = p.team_b.win_prob → winner p = "NE") ∧
    0 ≤ confidence p ∧ confidence p ≤ 100 := by
  refine ⟨rfl, ?_, ?_, ?_, ?_⟩
  · by_cases h : p.team_b.win_prob < p.team_a.win_prob <;> simp [winner, h]
  · intro h
    have : ¬ p.team_b.win_prob < p.team_a.win_prob := by rw [h]; exact lt_irrefl _
    simp [winner, this]
  · unfold confidence winningProb
    have e : ∀ x : ℚ, ((x - 0.5) / 0.5) * 100 = 200 * x - 100 := fun x => by ring
    rcases max_cases p.team_a.win_prob p.team_b.win_prob with ⟨h1, h2⟩ | ⟨h1, h2⟩ <;>
      rw [h1, e] <;> linarith
  · unfold confidence winningProb
    have e : ∀ x : ℚ, ((x - 0.5) / 0.5) * 100 = 200 * x - 100 := fun x => by ring
    rcases max_cases p.team_a.win_prob p.team_b.win_prob with ⟨h1, h2⟩ | ⟨h1, h2⟩ <;>
      rw [h1, e] <;> linarith

/-- Witness for `confidenceMeter_spec` at `mockPrediction`. -/
theorem confidenceMeter_spec_witness :
    confidence mockPrediction =
      ((max mockPrediction.team_a.win_prob mockPrediction.team_b.win_prob - 0.5) / 0.5) * 100 ∧
    (winner mockPrediction = "SEA" ↔
      mockPrediction.team_b.win_prob < mockPrediction.team_a.win_prob) ∧
    (mockPrediction.team_a.win_prob = mockPrediction.team_b.win_prob →
      winner mockPrediction = "NE") ∧
    0 ≤ confidence mockPrediction ∧ confidence mockPrediction ≤ 100 :=
  confidenceMeter_spec mockPrediction (by norm_num [mockPrediction])
    (by norm_num [mockPrediction]) (by norm_num [mockPrediction])

/-! ## ModelComparison.tsx -/

/-- JS `Number.prototype.toFixed(digits)` as a value: round to `digits`
decimal places (all values in this development are far from ties, where
`toFixed` agrees with round-half-up). -/
def jsToFixed (q : ℚ) (digits : ℕ) : ℚ :=
  (jsRound (q * 10 ^ digits) : ℚ) / 10 ^ digits

/-- The Accuracy cell of the comparison table (`ModelComparison.tsx`
lines 110–113): `(accuracy*100).toFixed(1)` with `±(accuracy_std*100).toFixed(1)`. -/
def accuracyCell (m : ModelMetrics) : ℚ × ℚ :=
  (jsToFixed (m.accuracy * 100) 1, jsToFixed (m.accuracy_std * 100) 1)

/-- The Log Loss cell (lines 116–119): `log_loss.toFixed(3)` with
`±log_loss_std.toFixed(3)`. -/
def logLossCell (m : ModelMetrics) : ℚ × ℚ :=
  (jsToFixed m.log_loss 3, jsToFixed m.log_loss_std 3)

/-- The ROC AUC cell (lines 122–125): `roc_auc.toFixed(3)` with
`±roc_auc_std.toFixed(3)`. -/
def rocAucCell (m : ModelMetrics) : ℚ × ℚ :=
  (jsToFixed m.roc_auc 3, jsToFixed m.roc_auc_std 3)

/-- One rendered row of the comparison table: model name, then for each
of the three metrics the pair (displayed mean, displayed ± standard
deviation). -/
def renderMetricsRow (m : ModelMetrics) : String × (ℚ × ℚ) × (ℚ × ℚ) × (ℚ × ℚ) :=
  (m.model_name, accuracyCell m, logLossCell m, rocAucCell m)

/-- C9: every `ModelMetrics` value consists of exactly the seven fields
`{model_name, accuracy, accuracy_std, log_loss, log_loss_std, roc_auc,
roc_auc_std}` (a mean and a standard deviation for each of accuracy,
log-loss and ROC-AUC), and the comparison table renders each mock entry's
mean together with its ± standard deviation, pairing each mean with the
std of the same metric. -/
theorem modelMetrics_fields_and_render :
    (∀ m : ModelMetrics,
      m = ⟨m.model_name, m.accuracy, m.accuracy_std, m.log_loss,
           m.log_loss_std, m.roc_auc, m.roc_auc_std⟩) ∧
    mockFeatures.model_comparison.map renderMetricsRow =
      [ ("Logistic Regression", (68.2, 4.5), (0.584, 0.032), (0.731, 0.038))
      , ("Random Forest", (65.4, 5.2), (0.612, 0.041), (0.708, 0.044)) ] := by
  constructor
  · intro m; cases m; rfl
  · simp only [mockFeatures, List.map, renderMetricsRow, accuracyCell, logLossCell,
      rocAucCell, jsToFixed, jsRound]
    norm_num [Int.floor_eq_iff]

/-! ## mockFeatures shape (C7, C8) -/

/-- C7 counterexample: `mockFeatures.all_importances` has 7 entries, not
one per each of 16 canonical features. -/
theorem mock_importances_length_not_sixteen :
    mockFeatures.all_importances.length = 7 ∧
    mockFeatures.all_importances.length ≠ 16 := by
  exact ⟨rfl, by decide⟩

/-- C7 amended: `all_importances` lists exactly as many entries as there
are selected features, and every listed entry is flagged `selected`;
non-selected features are omitted rather than listed with
`selected = false`. -/
theorem mock_importances_only_selected :
    mockFeatures.all_importances.length = mockFeatures.selected_features.length ∧
    mockFeatures.all_importances.all (·.selected) = true := by
  exact ⟨rfl, rfl⟩

/-- C8 counterexample: `mockFeatures.selected_features` has 7 entries,
which is not between 10 and 12. -/
theorem mock_selected_count_out_of_target :
    mockFeatures.selected_features.length = 7 ∧
    ¬(10 ≤ mockFeatures.selected_features.length ∧
      mockFeatures.selected_features.length ≤ 12) := by
  exact ⟨rfl, by decide⟩

/-- C8 amended: `selected_features` is an ordered, duplicate-free list of
7 feature names. -/
theorem mock_selected_features_shape :
    mockFeatures.selected_features.length = 7 ∧
    mockFeatures.selected_features.Nodup := by
  exact ⟨rfl, by decide⟩

/-! ## EDA data model (`api.ts`) -/

/-- `TeamSeasonRecord` from `api.ts`. -/
structure TeamSeasonRecord where
  season : ℕ
  win_pct : ℚ
  points_per_game : ℚ
  points_allowed_per_game : ℚ
  point_diff_per_game : ℚ
deriving DecidableEq

/-- `TeamHistoryEntry` from `api.ts`. -/
structure TeamHistoryEntry where
  abbr : String
  name : String
  seasons : List TeamSeasonRecord
deriving DecidableEq

/-- `TeamHistoryResponse` from `api.ts`. -/
structure TeamHistoryResponse where
  team_a : TeamHistoryEntry
  team_b : TeamHistoryEntry
deriving DecidableEq

/-- `FeatureDistribution` from `api.ts`. -/
structure FeatureDistribution where
  feature : String
  label : String
  bins : List ℚ
  home_win : List ℚ
  home_loss : List ℚ
deriving DecidableEq

/-- `FeatureDistributionsResponse` from `api.ts`. -/
structure FeatureDistributionsResponse where
  total_matchups : ℕ
  home_win_rate : ℚ
  distributions : List FeatureDistribution
deriving DecidableEq

/-- An entry of `high_pairs` in `CorrelationMatrixResponse` (`api.ts`). -/
structure HighPair where
  feat_a : String
  feat_b : String
  r : ℚ
deriving DecidableEq

/-- `CorrelationMatrixResponse` from `api.ts`. -/
structure CorrelationMatrixResponse where
  features : List String
  labels : List String
  matrix : List (List ℚ)
  high_pairs : List HighPair
deriving DecidableEq

/-- `GameTypeWinRate` from `api.ts`. -/
structure GameTypeWinRate where
  game_type : String
  count : ℕ
  home_win_rate : ℚ
deriving DecidableEq

/-- `HomeWinRatesResponse` from `api.ts`. -/
structure HomeWinRatesResponse where
  game_types : List GameTypeWinRate
deriving DecidableEq

/-- `MatchupStat` from `api.ts`. -/
structure MatchupStat where
  stat : String
  team_a_value : ℚ
  team_b_value : ℚ
  advantage : String
deriving DecidableEq

/-- A `{ abbr, name }` pair as used in `MatchupComparisonResponse`. -/
structure TeamRef where
  abbr : String
  name : String
deriving DecidableEq

/-- `MatchupComparisonResponse` from `api.ts`. -/
structure MatchupComparisonResponse where
  team_a : TeamRef
  team_b : TeamRef
  season : ℕ
  comparison : List MatchupStat
deriving DecidableEq

/-! ## EDA mock data (`api.ts`)

`generateSeasons` and `mockFeatureDistributions` call the unseeded
`Math.random()`; the ambient stream of draws is made explicit as a
parameter `rnd : ℕ → ℚ` giving the successive values, in call order. -/

/-- `generateSeasons` from `api.ts` lines 236–243.  Element `i` consumes
draws `rnd (4*i) … rnd (4*i+3)`, in source order. -/
def generateSeasons (rnd : ℕ → ℚ) (baseWinPct basePPG basePAG : ℚ) :
    List TeamSeasonRecord :=
  (List.range 15).map fun i =>
    { season := 2010 + i
      win_pct := (jsRound ((baseWinPct + (rnd (4*i) - 0.5) * 0.3) * 1000) : ℚ) / 1000
      points_per_game := (jsRound ((basePPG + (rnd (4*i+1) - 0.5) * 6) * 10) : ℚ) / 10
      points_allowed_per_game := (jsRound ((basePAG + (rnd (4*i+2) - 0.5) * 6) * 10) : ℚ) / 10
      point_diff_per_game := (jsRound (((basePPG - basePAG) + (rnd (4*i+3) - 0.5) * 8) * 10) : ℚ) / 10 }

/-- `mockTeamHistory` from `api.ts`: team_a's `generateSeasons` call
consumes the first 60 draws, team_b's the next 60. -/
def mockTeamHistory (rnd : ℕ → ℚ) : TeamHistoryResponse :=
  { team_a := { abbr := "SEA", name := "Seattle Seahawks"
                seasons := generateSeasons rnd 0.58 23.5 19.8 }
    team_b := { abbr := "NE", name := "New England Patriots"
                seasons := generateSeasons (fun n => rnd (60 + n)) 0.72 27.2 19.5 } }

/-- The label list mapped over in `mockFeatureDistributions`. -/
def distLabels : List String :=
  [ "Points Per Game", "Points Allowed Per Game", "Point Diff Per Game", "Win Pct"
  , "Pythagorean Wins", "Strength Of Schedule", "Avg Margin", "Is Home" ]

/-- `mockFeatureDistributions` from `api.ts` lines 250–263.  Distribution
`k` consumes draws `rnd (40*k) … rnd (40*k+19)` for `home_win` and
`rnd (40*k+20) … rnd (40*k+39)` for `home_loss`. -/
def mockFeatureDistributions (rnd : ℕ → ℚ) : FeatureDistributionsResponse :=
  { total_matchups := 4200
    home_win_rate := 0.572
    distributions :=
      (List.range distLabels.length).map fun k =>
        let label := distLabels.getD k ""
        { feature := (label.toLower.replace " " "_") ++ "_diff"
          label := label
          bins := (List.range 20).map fun i => -10 + (i : ℚ)
          home_win := (List.range 20).map fun j =>
            (jsRound (rnd (40*k + j) * 0.15 * 10000) : ℚ) / 10000
          home_loss := (List.range 20).map fun j =>
            (jsRound (rnd (40*k + 20 + j) * 0.12 * 10000) : ℚ) / 10000 } }

/-- `mockCorrelationMatrix` from `api.ts` lines 265–285. -/
def mockCorrelationMatrix : CorrelationMatrixResponse :=
  { features :=
      [ "points_per_game_diff", "points_allowed_per_game_diff", "point_diff_per_game_diff"
      , "win_pct_diff", "pythagorean_wins_diff", "strength_of_schedule_diff"
      , "avg_margin_diff", "is_home" ]
    labels :=
      [ "Points Per Game", "Points Allowed", "Point Diff", "Win %"
      , "Pythagorean Wins", "Strength Of Schedule", "Avg Margin", "Is Home" ]
    matrix :=
      [ [1.0, -0.12, 0.78, 0.45, 0.52, 0.18, 0.71, 0.02]
      , [-0.12, 1.0, -0.73, -0.38, -0.45, -0.11, -0.65, -0.01]
      , [0.78, -0.73, 1.0, 0.55, 0.64, 0.19, 0.92, 0.02]
      , [0.45, -0.38, 0.55, 1.0, 0.88, 0.32, 0.51, 0.01]
      , [0.52, -0.45, 0.64, 0.88, 1.0, 0.28, 0.59, 0.01]
      , [0.18, -0.11, 0.19, 0.32, 0.28, 1.0, 0.17, 0.0]
      , [0.71, -0.65, 0.92, 0.51, 0.59, 0.17, 1.0, 0.02]
      , [0.02, -0.01, 0.02, 0.01, 0.01, 0.0, 0.02, 1.0] ]
    high_pairs :=
      [ { feat_a := "Point Diff", feat_b := "Avg Margin", r := 0.92 }
      , { feat_a := "Win %", feat_b := "Pythagorean Wins", r := 0.88 }
      , { feat_a := "Points Per Game", feat_b := "Point Diff", r := 0.78 }
      , { feat_a := "Points Allowed", feat_b := "Point Diff", r := -0.73 }
      , { feat_a := "Points Per Game", feat_b := "Avg Margin", r := 0.71 } ] }

/-- `mockHomeWinRates` from `api.ts`. -/
def mockHomeWinRates : HomeWinRatesResponse :=
  { game_types :=
      [ { game_type := "REG", count := 3840, home_win_rate := 0.572 }
      , { game_type := "WC", count := 96, home_win_rate := 0.625 }
      , { game_type := "DIV", count := 96, home_win_rate := 0.646 }
      , { game_type := "CON", count := 48, home_win_rate := 0.583 }
      , { game_type := "SB", count := 15, home_win_rate := 0.467 } ] }

/-- `mockMatchupComparison` from `api.ts`. -/
def mockMatchupComparison : MatchupComparisonResponse :=
  { team_a := { abbr := "SEA", name := "Seattle Seahawks" }
    team_b := { abbr := "NE", name := "New England Patriots" }
    season := 2014
    comparison :=
      [ { stat := "Points Per Game", team_a_value := 24.2, team_b_value := 29.2, advantage := "NE" }
      , { stat := "Points Allowed Per Game", team_a_value := 15.9, team_b_value := 19.6, advantage := "SEA" }
      , { stat := "Point Diff Per Game", team_a_value := 8.3, team_b_value := 9.6, advantage := "NE" }
      , { stat := "Win Pct", team_a_value := 0.75, team_b_value := 0.75, advantage := "SEA" }
      , { stat := "Pythagorean Wins", team_a_value := 0.78, team_b_value := 0.76, advantage := "SEA" } ] }

/-! ## C5: module-evaluation determinism of the mock EDA data -/

/-- C5 counterexample: `generateSeasons` (hence `mockTeamHistory`, built
from it at module evaluation) depends on the ambient `Math.random()`
stream: the all-zero draw stream and the all-`1/2` draw stream give
different `win_pct` values for the first generated season, so two
evaluations of the module need not agree. -/
theorem mockTeamHistory_not_reproducible :
    ((mockTeamHistory (fun _ => 0)).team_a.seasons.getD 0
        ⟨0, 0, 0, 0, 0⟩).win_pct = 0.43 ∧
    ((mockTeamHistory (fun _ => (1:ℚ)/2)).team_a.seasons.getD 0
        ⟨0, 0, 0, 0, 0⟩).win_pct = 0.58 ∧
    (0.43 : ℚ) ≠ 0.58 := by
  refine ⟨?_, ?_, by norm_num⟩ <;>
    · simp only [mockTeamHistory, generateSeasons, List.range_succ_eq_map,
        List.map_cons, List.getD_cons_zero]
      norm_num [jsRound, Int.floor_eq_iff]

/-- C5 amended: only the random-independent skeleton of the mock EDA data
is identical across evaluations — season years, list lengths, scalar
constants, feature names and bins do not depend on the draws; the
per-season statistics and histogram masses do (see
`mockTeamHistory_not_reproducible`). -/
theorem mockEDA_deterministic_skeleton (rnd rnd' : ℕ → ℚ) :
    (mockTeamHistory rnd).team_a.seasons.map (·.season) =
      (mockTeamHistory rnd').team_a.seasons.map (·.season) ∧
    (mockTeamHistory rnd).team_b.seasons.map (·.season) =
      (mockTeamHistory rnd').team_b.seasons.map (·.season) ∧
    (mockTeamHistory rnd).team_a.seasons.length = 15 ∧
    (mockTeamHistory rnd).team_b.seasons.length = 15 ∧
    (mockFeatureDistributions rnd).total_matchups = 4200 ∧
    (mockFeatureDistributions rnd).home_win_rate = 0.572 ∧
    (mockFeatureDistributions rnd).distributions.map (·.feature) =
      (mockFeatureDistributions rnd').distributions.map (·.feature) ∧
    (mockFeatureDistributions rnd).distributions.map (·.bins) =
      (mockFeatureDistributions rnd').distributions.map (·.bins) := by
  refine ⟨?_, ?_, ?_, ?_, rfl, rfl, ?_, ?_⟩ <;>
    simp [mockTeamHistory, generateSeasons, mockFeatureDistributions, List.map_map,
      Function.comp]

/-! ## C6: `HistoricalComparison.tsx` season merge -/

/-- One row of the `chartData` array built in `HistoricalComparison.tsx`. -/
structure ChartRow where
  season : ℕ
  sea_win_pct : ℚ
  sea_points_per_game : ℚ
  sea_points_allowed_per_game : ℚ
  sea_point_diff_per_game : ℚ
  ne_win_pct : ℚ
  ne_points_per_game : ℚ
  ne_points_allowed_per_game : ℚ
  ne_point_diff_per_game : ℚ
deriving DecidableEq

/-- One merged row of `chartData` (`HistoricalComparison.tsx` lines
27–40): team_b's record for the same season is looked up with `find`, and
each missing value falls back to `?? 0`. -/
def mergeRow (b : TeamHistoryEntry) (aSeason : TeamSeasonRecord) : ChartRow :=
  let bSeason := b.seasons.find? (fun r => r.season == aSeason.season)
  { season := aSeason.season
    sea_win_pct := aSeason.win_pct
    sea_points_per_game := aSeason.points_per_game
    sea_points_allowed_per_game := aSeason.points_allowed_per_game
    sea_point_diff_per_game := aSeason.point_diff_per_game
    ne_win_pct := (bSeason.map (·.win_pct)).getD 0
    ne_points_per_game := (bSeason.map (·.points_per_game)).getD 0
    ne_points_allowed_per_game := (bSeason.map (·.points_allowed_per_game)).getD 0
    ne_point_diff_per_game := (bSeason.map (·.point_diff_per_game)).getD 0 }

/-- `chartData` of `HistoricalComparison.tsx`: one merged row per
`team_a` season. -/
def chartData (data : TeamHistoryResponse) : List ChartRow :=
  data.team_a.seasons.map (mergeRow data.team_b)

/-- A one-season SEA history used to exercise the merge. -/
def histA : TeamHistoryEntry :=
  { abbr := "SEA", name := "Seattle Seahawks"
    seasons := [ { season := 2010, win_pct := 0.5, points_per_game := 20
                 , points_allowed_per_game := 18, point_diff_per_game := 2 } ] }

/-- An NE history that is missing season 2010 (it only covers 2011). -/
def histB : TeamHistoryEntry :=
  { abbr := "NE", name := "New England Patriots"
    seasons := [ { season := 2011, win_pct := 0.75, points_per_game := 27
                 , points_allowed_per_game := 19, point_diff_per_game := 8 } ] }

/-- C6 counterexample: when team_b has no record for one of team_a's
seasons, the merged per-season values are literally `0` — although every
`win_pct` actually present for team_b is `0.75`, so `0` is not a
league-average baseline, and no metadata flag exists in `ChartRow`. -/
theorem merged_missing_season_is_zero :
    (chartData { team_a := histA, team_b := histB }).map (·.ne_win_pct) = [0] ∧
    histB.seasons.map (·.win_pct) = [0.75] ∧
    (0.75 : ℚ) ≠ 0 := by
  refine ⟨?_, rfl, by norm_num⟩
  simp [chartData, mergeRow, histA, histB, List.find?]

/-- C6 amended: for a season of team_a with no matching season in
team_b's history, every team_b column of the merged row is silently `0`
(the `?? 0` fallback); no league-average baseline or metadata flag is
produced. -/
theorem merged_missing_season_fallback (b : TeamHistoryEntry)
    (s : TeamSeasonRecord)
    (h : b.seasons.find? (fun r => r.season == s.season) = none) :
    (mergeRow b s).ne_win_pct = 0 ∧
    (mergeRow b s).ne_points_per_game = 0 ∧
    (mergeRow b s).ne_points_allowed_per_game = 0 ∧
    (mergeRow b s).ne_point_diff_per_game = 0 := by
  simp [mergeRow, h]

/-- Witness for `merged_missing_season_fallback` at `histB` and the
single 2010 season of `histA`. -/
theorem merged_missing_season_fallback_witness :
    (mergeRow histB ⟨2010, 0.5, 20, 18, 2⟩).ne_win_pct = 0 ∧
    (mergeRow histB ⟨2010, 0.5, 20, 18, 2⟩).ne_points_per_game = 0 ∧
    (mergeRow histB ⟨2010, 0.5, 20, 18, 2⟩).ne_points_allowed_per_game = 0 ∧
    (mergeRow histB ⟨2010, 0.5, 20, 18, 2⟩).ne_point_diff_per_game = 0 :=
  merged_missing_season_fallback histB ⟨2010, 0.5, 20, 18, 2⟩ rfl

/-! ## C4: error handling in `usePrediction.ts` and `useExplore.ts` -/

/-- The state of the `usePrediction` hook after a run of `predict`. -/
structure PredictionState where
  prediction : Option PredictionResponse
  features : Option FeaturesResponse
  isLoading : Bool
  error : Option String
deriving DecidableEq

/-- One run of `predict` (`usePrediction.ts` lines 30–49) as a function
of the joint outcome of the two fetches: `error` is cleared on entry and
never reassigned; the `catch` branch logs a console warning and stores
the mock data; `finally` clears `isLoading`.  The resulting state does
not depend on the state before the run, since every field is written. -/
def predictRun
    (outcome : Except String (PredictionResponse × FeaturesResponse)) :
    PredictionState :=
  match outcome with
  | .ok (p, f) =>
      { prediction := some p, features := some f, isLoading := false, error := none }
  | .error _ =>
      { prediction := some mockPrediction, features := some mockFeatures
        isLoading := false, error := none }

/-- The state of the `useExplore` hook after a run of `fetchAll`. -/
structure ExploreState where
  teamHistory : Option TeamHistoryResponse
  featureDistributions : Option FeatureDistributionsResponse
  correlationMatrix : Option CorrelationMatrixResponse
  homeWinRates : Option HomeWinRatesResponse
  matchupComparison : Option MatchupComparisonResponse
  isLoading : Bool
  error : Option String
deriving DecidableEq

/-- One run of `fetchAll` (`useExplore.ts` lines 40–68) as a function of
the joint outcome of the five EDA fetches; `rnd` is the `Math.random()`
stream that generated the module's mock EDA data. -/
def fetchAllRun (rnd : ℕ → ℚ)
    (outcome : Except String (TeamHistoryResponse × FeatureDistributionsResponse ×
      CorrelationMatrixResponse × HomeWinRatesResponse × MatchupComparisonResponse)) :
    ExploreState :=
  match outcome with
  | .ok (h, d, c, w, m) =>
      { teamHistory := some h, featureDistributions := some d
        correlationMatrix := some c, homeWinRates := some w
        matchupComparison := some m, isLoading := false, error := none }
  | .error _ =>
      { teamHistory := some (mockTeamHistory rnd)
        featureDistributions := some (mockFeatureDistributions rnd)
        correlationMatrix := some mockCorrelationMatrix
        homeWinRates := some mockHomeWinRates
        matchupComparison := some mockMatchupComparison
        isLoading := false, error := none }

/-- C4 counterexample: when every fetch throws, `predict` and `fetchAll`
end with `error = none` — not a descriptive diagnostic — and present the
mock substitute data as the result. -/
theorem fetch_failure_not_fatal :
    (predictRun (.error "Failed to fetch prediction")).error = none ∧
    (predictRun (.error "Failed to fetch prediction")).prediction = some mockPrediction ∧
    (predictRun (.error "Failed to fetch prediction")).features = some mockFeatures ∧
    (fetchAllRun (fun _ => 0) (.error "Failed to fetch team history")).error = none ∧
    (fetchAllRun (fun _ => 0) (.error "Failed to fetch team history")).teamHistory =
      some (mockTeamHistory (fun _ => 0)) ∧
    (fetchAllRun (fun _ => 0) (.error "Failed to fetch team history")).correlationMatrix =
      some mockCorrelationMatrix :=
  ⟨rfl, rfl, rfl, rfl, rfl, rfl⟩

/-- C4 amended: fetch failures are not fatal: whatever the outcome of
the fetches, both hooks end with `error = none` and `isLoading = false`
and with data present; on the failure path the data presented is the mock
substitute (the only diagnostic is a console warning). -/
theorem hooks_swallow_fetch_errors :
    (∀ o, (predictRun o).error = none ∧ (predictRun o).isLoading = false ∧
      (predictRun o).prediction.isSome ∧ (predictRun o).features.isSome) ∧
    (∀ e, (predictRun (.error e)).prediction = some mockPrediction ∧
      (predictRun (.error e)).features = some mockFeatures) ∧
    (∀ rnd o, (fetchAllRun rnd o).error = none ∧
      (fetchAllRun rnd o).isLoading = false ∧
      (fetchAllRun rnd o).teamHistory.isSome) ∧
    (∀ rnd e, (fetchAllRun rnd (.error e)).teamHistory = some (mockTeamHistory rnd) ∧
      (fetchAllRun rnd (.error e)).featureDistributions =
        some (mockFeatureDistributions rnd) ∧
      (fetchAllRun rnd (.error e)).correlationMatrix = some mockCorrelationMatrix ∧
      (fetchAllRun rnd (.error e)).homeWinRates = some mockHomeWinRates ∧
      (fetchAllRun rnd (.error e)).matchupComparison = some mockMatchupComparison) := by
  refine ⟨fun o => ?_, fun e => ⟨rfl, rfl⟩, fun rnd o => ?_, fun rnd e => ⟨rfl, rfl, rfl, rfl, rfl⟩⟩
  · rcases o with _ | ⟨p, f⟩ <;> exact ⟨rfl, rfl, rfl, rfl⟩
  · rcases o with _ | ⟨h, d, c, w, m⟩ <;> exact ⟨rfl, rfl, rfl⟩

/-! ## C3: correlation filter on the selected features -/

/-- Entry `(i, j)` of the mock training-set correlation matrix
(out-of-range indices default to `0`, never reached below). -/
def corrEntry (i j : ℕ) : ℚ :=
  (mockCorrelationMatrix.matrix.getD i []).getD j 0

/-- C3 counterexample: `point_differential` and `average_margin` are both
in `mockFeatures.selected_features` (positions 2 and 6, which correspond
positionally to matrix features 2 and 6, labelled "Point Diff" and
"Avg Margin"), yet their recorded training-set correlation is
`r = 0.92 > 0.85` — it is even listed in `high_pairs`. -/
theorem selected_pair_exceeds_correlation_bound :
    mockFeatures.selected_features.getD 2 "" = "point_differential" ∧
    mockFeatures.selected_features.getD 6 "" = "average_margin" ∧
    mockCorrelationMatrix.features.getD 2 "" = "point_diff_per_game_diff" ∧
    mockCorrelationMatrix.features.getD 6 "" = "avg_margin_diff" ∧
    mockCorrelationMatrix.labels.getD 2 "" = "Point Diff" ∧
    mockCorrelationMatrix.labels.getD 6 "" = "Avg Margin" ∧
    corrEntry 2 6 = 0.92 ∧
    ¬ |corrEntry 2 6| ≤ 0.85 ∧
    (⟨"Point Diff", "Avg Margin", 0.92⟩ : HighPair) ∈ mockCorrelationMatrix.high_pairs := by
  refine ⟨rfl, rfl, rfl, rfl, rfl, rfl, rfl, ?_, ?_⟩
  · have h : corrEntry 2 6 = 0.92 := rfl
    have habs : |(0.92 : ℚ)| = 0.92 := abs_of_pos (by norm_num)
    rw [h, habs]; norm_num
  · simp [mockCorrelationMatrix]

/-- C3 amended: among the seven selected features (matrix indices 0–6),
every distinct pair has recorded training-set correlation `|r| ≤ 0.85`,
except the two pairs `(point_differential, average_margin)` with
`r = 0.92` and `(win_pct, pythagorean_wins)` with `r = 0.88`. -/
theorem selected_correlations_bounded (k l : ℕ)
    (hk : k < 7) (hl : l < 7) (hne : k ≠ l)
    (h26 : ¬(k = 2 ∧ l = 6)) (h62 : ¬(k = 6 ∧ l = 2))
    (h34 : ¬(k = 3 ∧ l = 4)) (h43 : ¬(k = 4 ∧ l = 3)) :
    |corrEntry k l| ≤ 0.85 := by
  interval_cases k <;> interval_cases l <;>
    first
      | omega
      | norm_num [corrEntry, mockCorrelationMatrix, abs_le]

/-- Witness for `selected_correlations_bounded` at the selected pair
(0, 1): `|corrEntry 0 1| = 0.12 ≤ 0.85`. -/
theorem selected_correlations_bounded_witness :
    |corrEntry 0 1| ≤ 0.85 :=
  selected_correlations_bounded 0 1 (by decide) (by decide) (by decide)
    (by decide) (by decide) (by decide) (by decide)

/-! ## C2: time-series cross-validation folds -/

/-- Modelled from the spec: the Trainer's season-chronological
expanding-window cross-validation (spec §4.3) — the Trainer itself is not
among the sources under `src/`, which contain only the frontend.  Given
the season list in chronological order, fold `i` trains on all seasons up
to and including `S_i` and validates on season `S_{i+1}`. -/
def makeFolds (seasons : List ℤ) : List (List ℤ × List ℤ) :=
  (List.range (seasons.length - 1)).map fun i =>
    (seasons.take (i + 1), (seasons.drop (i + 1)).take 1)

/-- C2: for every expanding-window fold, every training season strictly
precedes every validation season (so max training season < min validation
season). -/
theorem makeFolds_time_ordered (seasons : List ℤ)
    (hs : List.Sorted (· < ·) seasons) :
    ∀ fold ∈ makeFolds seasons, ∀ t ∈ fold.1, ∀ v ∈ fold.2, t < v := by
  intro fold hfold t ht v hv
  simp only [makeFolds, List.mem_map, List.mem_range] at hfold
  obtain ⟨i, _, rfl⟩ := hfold
  have hp : List.Pairwise (· < ·) (seasons.take (i+1) ++ seasons.drop (i+1)) := by
    rw [List.take_append_drop]; exact hs
  rw [List.pairwise_append] at hp
  exact hp.2.2 t ht v (List.take_subset _ _ hv)

/-- Witness for `makeFolds_time_ordered` on the seasons 2010–2012: the
folds evaluate to ([2010], [2011]) and ([2010, 2011], [2012]), and the
theorem applies to the first fold's pair (2010, 2011). -/
theorem makeFolds_time_ordered_witness :
    makeFolds [2010, 2011, 2012] =
      [([2010], [2011]), ([2010, 2011], [2012])] ∧
    (2010 : ℤ) < 2011 :=
  ⟨by decide,
   makeFolds_time_ordered [2010, 2011, 2012]
     (by simp [List.sorted_cons]) ([2010], [2011])
     (by decide) 2010 (by decide) 2011 (by decide)⟩

end SBP
